import Mathlib

/-!
Verification of the upper-triangular MPI transfer program (`src/main.c`).

The program builds an MPI indexed datatype describing the upper triangle of a
square row-major matrix, and transfers exactly those elements from rank 0
(`PROCESO_ORIGEN`) to rank 1 (`PROCESO_DESTINO`) with a single blocking
send/receive pair.  The MPI library itself is an external collaborator; its
pack/unpack semantics for indexed datatypes are modelled from the spec.
-/

/-! ## Compile-time constants (`#define` lines of `main.c`) -/

def ETIQUETA_MENSAJE : Nat := 10

def PROCESO_ORIGEN : Nat := 0

def PROCESO_DESTINO : Nat := 1

def NUM_ITERACIONES : Nat := 1

def dimension_matriz : Nat := 4

/-! ## Layout Builder (`generar_tipo_triangular_superior`) -/

/-- The indexed-datatype descriptor: the pair of tables
(`longitudes_bloques`, `desplazamientos`) that `main.c` passes to
`MPI_Type_indexed`, one entry per row. -/
structure TipoIndexado where
  longitudes_bloques : List Nat
  desplazamientos : List Nat
  deriving DecidableEq, Repr

/-- Embedding of `generar_tipo_triangular_superior` (main.c lines 22-44):
for each `fila` from `0` to `dimension - 1` the block length is
`dimension - fila` and the displacement is `fila * dimension + fila`. -/
def generar_tipo_triangular_superior (dimension : Nat) : TipoIndexado :=
  { longitudes_bloques := (List.range dimension).map (fun fila => dimension - fila)
    desplazamientos := (List.range dimension).map (fun fila => fila * dimension + fila) }

/-- Outcome of descriptor construction when the two `malloc` calls of
`generar_tipo_triangular_superior` are allowed to fail.  The source never
checks the allocations: when one fails and `dimension ≥ 1`, the first loop
iteration stores through the failed (null) allocation, which is an invalid
write (undefined behavior), not a reported error. -/
inductive ResultadoConstruccion where
  | descriptor (t : TipoIndexado)
  | escritura_invalida
  | error_de_asignacion
  deriving DecidableEq, Repr

/-- Embedding of `generar_tipo_triangular_superior` with the outcome of each
of its two allocations (main.c lines 24-25) made explicit.  The code has no
allocation check: with both allocations good it builds the descriptor; with a
failed allocation it runs the loop anyway, so for `dimension ≥ 1` the first
store is an invalid write, and for `dimension = 0` the loop body never runs
and the (empty) tables are handed to `MPI_Type_indexed`. -/
def generar_tipo_triangular_superior_con_asignacion (dimension : Nat)
    (asignacion_longitudes asignacion_desplazamientos : Bool) : ResultadoConstruccion :=
  if asignacion_longitudes && asignacion_desplazamientos then
    ResultadoConstruccion.descriptor (generar_tipo_triangular_superior dimension)
  else if dimension = 0 then
    ResultadoConstruccion.descriptor { longitudes_bloques := [], desplazamientos := [] }
  else
    ResultadoConstruccion.escritura_invalida

/-- Modelled from the spec: the set of flat offsets named by an indexed
datatype descriptor — for each block `r`, offsets `desplazamientos[r]`
through `desplazamientos[r] + longitudes_bloques[r] - 1`.  (`MPI_Type_indexed`
is an external collaborator; this is the layout it denotes.) -/
def offsets_cubiertos (t : TipoIndexado) : List Nat :=
  (t.desplazamientos.zip t.longitudes_bloques).flatMap
    (fun p => (List.range p.2).map (fun i => p.1 + i))

/-! ## Matrix creation (`crear_matriz`) -/

/-- Embedding of `crear_matriz` (main.c lines 67-81): a flat row-major buffer
of `dimension * dimension` integers; entry `fila * dimension + columna` is
`fila * dimension + columna` when `inicializar` is set and `0` otherwise. -/
def crear_matriz (dimension : Nat) (inicializar : Bool) : List Int :=
  (List.range dimension).flatMap (fun fila =>
    (List.range dimension).map (fun columna =>
      if inicializar then ((fila * dimension + columna : Nat) : Int) else 0))

/-! ## Transfer Engine (MPI send/receive with the indexed type) -/

/-- Modelled from the spec: the payload `MPI_Send` extracts from the source
buffer — the values at the descriptor's covered offsets, in block order. -/
def empaquetar (t : TipoIndexado) (buffer : List Int) : List Int :=
  (offsets_cubiertos t).map (fun off => buffer.getD off 0)

/-- Modelled from the spec: `MPI_Recv` with the same indexed datatype writes
the packed values back at the same covered offsets, in block order; every
other offset of the receive buffer is left untouched. -/
def desempaquetar (t : TipoIndexado) (mensaje : List Int) (buffer : List Int) : List Int :=
  ((offsets_cubiertos t).zip mensaje).foldl (fun b p => b.set p.1 p.2) buffer

/-- Modelled from the spec: `MPI_Send` is a blocking hand-off; it reads the
described elements and returns the caller's buffer unchanged (the caller may
safely reuse or free it afterward).  Result: (payload, buffer after send). -/
def enviar (t : TipoIndexado) (buffer : List Int) : List Int × List Int :=
  (empaquetar t buffer, buffer)

/-- The source matrix of the run: `crear_matriz(dimension_matriz, 1)`
at rank `PROCESO_ORIGEN` (main.c line 128). -/
def matriz_origen : List Int := crear_matriz dimension_matriz true

/-- The descriptor of the run (main.c line 131). -/
def tipo_triang_sup : TipoIndexado := generar_tipo_triangular_superior dimension_matriz

/-- The single message of the run (main.c lines 139-140). -/
def mensaje_transferido : List Int := empaquetar tipo_triang_sup matriz_origen

/-- The destination matrix after the receive (main.c lines 144-148):
`crear_matriz(dimension_matriz, 0)` updated by `MPI_Recv` with the
upper-triangular descriptor. -/
def matriz_recibida : List Int :=
  desempaquetar tipo_triang_sup mensaje_transferido (crear_matriz dimension_matriz false)

/-! ## Configuration Validator (`verificar_configuracion`) -/

/-- Result of `verificar_configuracion`: either all checks pass, or the first
failed check prints its message and calls `MPI_Abort(MPI_COMM_WORLD, 1)`. -/
inductive ResultadoVerificacion where
  | ok
  | aborto (codigo : Nat) (mensaje : String)
  deriving DecidableEq, Repr

/-- Embedding of `verificar_configuracion` (main.c lines 87-102), with the
`#define` constants it reads (`NUM_ITERACIONES`, `PROCESO_ORIGEN`,
`PROCESO_DESTINO`) made explicit parameters alongside `total_procesos`.
`MPI_Abort` does not return, so the checks short-circuit. -/
def verificar_configuracion (num_iteraciones proceso_origen proceso_destino
    total_procesos : Nat) : ResultadoVerificacion :=
  if num_iteraciones ≠ 1 then
    ResultadoVerificacion.aborto 1 "Error: NUM_ITERACIONES debe ser 1"
  else if proceso_origen = proceso_destino then
    ResultadoVerificacion.aborto 1 "Error: PROCESO_ORIGEN y PROCESO_DESTINO no pueden ser iguales"
  else if total_procesos < 2 then
    ResultadoVerificacion.aborto 1 "Error: Se requieren al menos 2 procesos para ejecutar este programa"
  else
    ResultadoVerificacion.ok

/-! ## Trace model of `main` -/

/-- The observable steps a single rank performs in `main` (main.c 107-166). -/
inductive Evento where
  | verificacion (total_procesos : Nat)
  | aborto (codigo : Nat)
  | barrera
  | crear (dimension : Nat) (inicializar : Bool)
  | construir_tipo (dimension : Nat)
  | mostrar (dimension : Nat)
  | envio (destino etiqueta : Nat)
  | recepcion (origen etiqueta : Nat)
  | liberar_matriz
  | liberar_tipo
  | finalizacion
  deriving DecidableEq, Repr

/-- Embedding of `main`'s control flow for one rank: the ordered trace of its
steps, paired with its exit status (`some 0` on normal completion, `none`
when the rank called `MPI_Abort`).  Only `PROCESO_ORIGEN` validates the
configuration (main.c lines 117-119), before the barrier at line 122. -/
def traza_main (rango total_procesos : Nat) : List Evento × Option Nat :=
  if rango = PROCESO_ORIGEN ∧
      verificar_configuracion NUM_ITERACIONES PROCESO_ORIGEN PROCESO_DESTINO total_procesos ≠
        ResultadoVerificacion.ok then
    ([Evento.verificacion total_procesos, Evento.aborto 1], none)
  else
    ((if rango = PROCESO_ORIGEN then [Evento.verificacion total_procesos] else []) ++
      [Evento.barrera, Evento.crear dimension_matriz true,
        Evento.construir_tipo dimension_matriz] ++
      (if rango = PROCESO_ORIGEN then
        [Evento.mostrar dimension_matriz, Evento.envio PROCESO_DESTINO ETIQUETA_MENSAJE]
      else if rango = PROCESO_DESTINO then
        [Evento.crear dimension_matriz false,
          Evento.recepcion PROCESO_ORIGEN ETIQUETA_MENSAJE,
          Evento.mostrar dimension_matriz, Evento.liberar_matriz]
      else []) ++
      [Evento.liberar_matriz, Evento.liberar_tipo, Evento.finalizacion], some 0)

/-! ## Helper lemmas -/

theorem zip_map_self {α β : Type} (l : List α) (f : α → β) :
    l.zip (l.map f) = l.map (fun a => (a, f a)) := by
  induction l with
  | nil => rfl
  | cons a t ih => simp [ih]

theorem offsets_generar (d : Nat) :
    offsets_cubiertos (generar_tipo_triangular_superior d) =
      (List.range d).flatMap
        (fun fila => (List.range (d - fila)).map (fun i => fila * d + fila + i)) := by
  unfold offsets_cubiertos generar_tipo_triangular_superior
  rw [List.zip_map', List.flatMap_map]

theorem mem_offsets_generar (d x : Nat) :
    x ∈ offsets_cubiertos (generar_tipo_triangular_superior d) ↔
      ∃ r c, r < d ∧ r ≤ c ∧ c < d ∧ x = r * d + c := by
  rw [offsets_generar]
  simp only [List.mem_flatMap, List.mem_map, List.mem_range]
  constructor
  · rintro ⟨r, hr, i, hi, rfl⟩
    exact ⟨r, r + i, hr, Nat.le_add_right r i, by omega, by ring⟩
  · rintro ⟨r, c, hr, hrc, hcd, rfl⟩
    exact ⟨r, hr, c - r, by omega, by omega⟩

theorem nodup_offsets_generar (d : Nat) :
    (offsets_cubiertos (generar_tipo_triangular_superior d)).Nodup := by
  rw [offsets_generar, List.nodup_flatMap]
  constructor
  · intro r _
    exact List.Nodup.map (fun a b h => by omega) (List.nodup_range _)
  · refine (List.pairwise_lt_range d).imp ?_
    intro r s hrs
    simp only [Function.onFun]
    intro x hx hx2
    simp only [List.mem_map, List.mem_range] at hx hx2
    obtain ⟨i, hi, rfl⟩ := hx
    obtain ⟨j, hj, hEq⟩ := hx2
    have h1 : (r + 1) * d ≤ s * d := Nat.mul_le_mul_right d (by omega)
    have h2 : (r + 1) * d = r * d + d := by ring
    omega

theorem sum_longitudes (n : Nat) :
    (((List.range n).map (fun r => n - r)).sum) * 2 = n * (n + 1) := by
  induction n with
  | zero => rfl
  | succ m ih =>
    rw [List.range_succ_eq_map]
    simp only [List.map_cons, List.map_map]
    have hfun : ((fun r => m + 1 - r) ∘ Nat.succ) = fun r => m - r := by
      funext r
      simp [Function.comp]
    rw [hfun]
    simp only [List.sum_cons]
    have h2 : (m + 1) * (m + 1 + 1) = m * (m + 1) + 2 * (m + 1) := by ring
    omega

theorem length_offsets_generar (d : Nat) :
    (offsets_cubiertos (generar_tipo_triangular_superior d)).length = d * (d + 1) / 2 := by
  rw [offsets_generar, List.length_flatMap]
  have hmap : List.map
      (List.length ∘ fun fila => (List.range (d - fila)).map (fun i => fila * d + fila + i))
      (List.range d) = (List.range d).map (fun fila => d - fila) := by
    simp [Function.comp]
  rw [hmap]
  have h := sum_longitudes d
  omega

theorem offsets_lt_generar (d x : Nat)
    (hx : x ∈ offsets_cubiertos (generar_tipo_triangular_superior d)) : x < d * d := by
  rw [mem_offsets_generar] at hx
  obtain ⟨r, c, hr, hrc, hcd, rfl⟩ := hx
  have h1 : (r + 1) * d ≤ d * d := Nat.mul_le_mul_right d hr
  have h2 : (r + 1) * d = r * d + d := by ring
  omega

theorem length_foldl_set (pares : List (Nat × Int)) : ∀ (buffer : List Int),
    (pares.foldl (fun b p => b.set p.1 p.2) buffer).length = buffer.length := by
  induction pares with
  | nil => intro _; rfl
  | cons p resto ih =>
    intro buffer
    rw [List.foldl_cons, ih, List.length_set]

theorem getD_foldl_set_of_not_mem (pares : List (Nat × Int)) :
    ∀ (buffer : List Int) (off : Nat), off ∉ pares.map Prod.fst →
      (pares.foldl (fun b p => b.set p.1 p.2) buffer).getD off 0 = buffer.getD off 0 := by
  induction pares with
  | nil => intro _ _ _; rfl
  | cons p resto ih =>
    intro buffer off hoff
    simp only [List.map_cons, List.mem_cons, not_or] at hoff
    rw [List.foldl_cons, ih _ off hoff.2, List.getD_eq_getElem?_getD,
      List.getD_eq_getElem?_getD, List.getElem?_set_ne (fun h => hoff.1 h.symm)]

theorem getD_foldl_set_of_mem (pares : List (Nat × Int)) :
    ∀ (buffer : List Int) (off : Nat) (v : Int), (pares.map Prod.fst).Nodup →
      (off, v) ∈ pares → off < buffer.length →
      (pares.foldl (fun b p => b.set p.1 p.2) buffer).getD off 0 = v := by
  induction pares with
  | nil =>
    intro _ _ _ _ h _
    exact absurd h (List.not_mem_nil _)
  | cons p resto ih =>
    obtain ⟨a, b⟩ := p
    intro buffer off v hnodup hmem hlen
    simp only [List.map_cons, List.nodup_cons] at hnodup
    rw [List.foldl_cons]
    rcases List.mem_cons.mp hmem with heq | hmem2
    · injection heq with h1 h2
      subst h1
      subst h2
      rw [getD_foldl_set_of_not_mem resto _ off hnodup.1, List.getD_eq_getElem?_getD,
        List.getElem?_set_self hlen]
      rfl
    · exact ih (buffer.set a b) off v hnodup.2 hmem2 (by rw [List.length_set]; exact hlen)

theorem longitud_bloque_generar (d r : Nat) (hr : r < d) :
    (generar_tipo_triangular_superior d).longitudes_bloques.getD r 0 = d - r := by
  unfold generar_tipo_triangular_superior
  rw [List.getD_eq_getElem?_getD, List.getElem?_map, List.getElem?_range hr]
  rfl

theorem desplazamiento_generar (d r : Nat) (hr : r < d) :
    (generar_tipo_triangular_superior d).desplazamientos.getD r 0 = r * d + r := by
  unfold generar_tipo_triangular_superior
  rw [List.getD_eq_getElem?_getD, List.getElem?_map, List.getElem?_range hr]
  rfl

/-! ## Claim theorems -/

/-- C2: for every `dimension ≥ 1` the Layout Builder produces exactly
`dimension` blocks; block `r` has length `dimension - r` and flat offset
`r * dimension + r`; for `dimension = 1` it yields a single block of length 1
at offset 0. -/
theorem bloques_por_fila (d : Nat) (hd : 1 ≤ d) :
    (generar_tipo_triangular_superior d).longitudes_bloques.length = d ∧
    (generar_tipo_triangular_superior d).desplazamientos.length = d ∧
    (∀ r, r < d →
      (generar_tipo_triangular_superior d).longitudes_bloques.getD r 0 = d - r ∧
      (generar_tipo_triangular_superior d).desplazamientos.getD r 0 = r * d + r) ∧
    (generar_tipo_triangular_superior 1).longitudes_bloques = [1] ∧
    (generar_tipo_triangular_superior 1).desplazamientos = [0] := by
  refine ⟨?_, ?_, ?_, by decide, by decide⟩
  · simp [generar_tipo_triangular_superior]
  · simp [generar_tipo_triangular_superior]
  · intro r hr
    exact ⟨longitud_bloque_generar d r hr, desplazamiento_generar d r hr⟩

theorem bloques_por_fila_witness :
    (generar_tipo_triangular_superior 1).longitudes_bloques.getD 0 0 = 1 ∧
    (generar_tipo_triangular_superior 1).desplazamientos.getD 0 0 = 0 := by
  have h := (bloques_por_fila 1 (by decide)).2.2.1 0 (by decide)
  simpa using h

/-- C3: for every `dimension ≥ 1` the emitted blocks cover exactly
`dimension * (dimension + 1) / 2` distinct offsets, with no overlap between
blocks, and the covered set is exactly the upper-triangle offsets
`r * dimension + c` with `r ≤ c < dimension`. -/
theorem cobertura_exacta_triangulo (d : Nat) (hd : 1 ≤ d) :
    (offsets_cubiertos (generar_tipo_triangular_superior d)).Nodup ∧
    (offsets_cubiertos (generar_tipo_triangular_superior d)).length = d * (d + 1) / 2 ∧
    (∀ x, x ∈ offsets_cubiertos (generar_tipo_triangular_superior d) ↔
      ∃ r c, r < d ∧ r ≤ c ∧ c < d ∧ x = r * d + c) :=
  ⟨nodup_offsets_generar d, length_offsets_generar d, fun x => mem_offsets_generar d x⟩

theorem cobertura_exacta_triangulo_witness :
    (offsets_cubiertos (generar_tipo_triangular_superior 4)).length = 4 * (4 + 1) / 2 :=
  (cobertura_exacta_triangulo 4 (by decide)).2.1

/-- C4: block lengths decrease by exactly 1 from each row to the next, block
offsets strictly increase, and the descriptor is a pure function of the
dimension (two builds with the same dimension are identical). -/
theorem invariantes_descriptor (d r : Nat) (hr : r + 1 < d) :
    (generar_tipo_triangular_superior d).longitudes_bloques.getD (r + 1) 0 + 1 =
      (generar_tipo_triangular_superior d).longitudes_bloques.getD r 0 ∧
    (generar_tipo_triangular_superior d).desplazamientos.getD r 0 <
      (generar_tipo_triangular_superior d).desplazamientos.getD (r + 1) 0 ∧
    generar_tipo_triangular_superior d = generar_tipo_triangular_superior d := by
  have hr0 : r < d := by omega
  rw [longitud_bloque_generar d (r + 1) hr, longitud_bloque_generar d r hr0,
    desplazamiento_generar d r hr0, desplazamiento_generar d (r + 1) hr]
  have h2 : (r + 1) * d = r * d + d := by ring
  exact ⟨by omega, by omega, rfl⟩

theorem invariantes_descriptor_witness :
    (generar_tipo_triangular_superior 4).longitudes_bloques.getD 1 0 + 1 =
      (generar_tipo_triangular_superior 4).longitudes_bloques.getD 0 0 :=
  (invariantes_descriptor 4 0 (by decide)).1

/-- C1: in the fixed run (dimension 4, source 0, destination 1, tag 10, one
transfer), with the source matrix initialized to `value(r,c) = r*4+c` and the
destination initialized to zeros, after the transfer the destination holds the
source value at every `c ≥ r` and `0` at every `c < r`; concretely it equals
`[[0,1,2,3],[0,5,6,7],[0,0,10,11],[0,0,0,15]]` flattened row-major. -/
theorem escenario_concreto_transferencia :
    matriz_recibida = [0, 1, 2, 3, 0, 5, 6, 7, 0, 0, 10, 11, 0, 0, 0, 15] ∧
    (∀ r, r < 4 → ∀ c, c < 4 →
      (r ≤ c → matriz_recibida.getD (r * 4 + c) 0 = matriz_origen.getD (r * 4 + c) 0) ∧
      (c < r → matriz_recibida.getD (r * 4 + c) 0 = 0)) :=
  ⟨by decide, by decide⟩

theorem escenario_concreto_transferencia_witness :
    matriz_recibida.getD 6 0 = matriz_origen.getD 6 0 :=
  (escenario_concreto_transferencia.2 1 (by decide) 2 (by decide)).1 (by decide)

/-- C8: for every receive buffer contents and every matching send with the
same upper-triangular descriptor, on return from the receive each covered
offset holds the value the source sent for that offset and every uncovered
offset retains exactly its pre-call value (and the buffer length is
unchanged). -/
theorem recepcion_escribe_cubiertos_y_preserva_resto (d : Nat) (origen buffer : List Int)
    (hlen : buffer.length = d * d) :
    (desempaquetar (generar_tipo_triangular_superior d)
        (empaquetar (generar_tipo_triangular_superior d) origen) buffer).length =
      buffer.length ∧
    (∀ off, off ∈ offsets_cubiertos (generar_tipo_triangular_superior d) →
      (desempaquetar (generar_tipo_triangular_superior d)
          (empaquetar (generar_tipo_triangular_superior d) origen) buffer).getD off 0 =
        origen.getD off 0) ∧
    (∀ off, off ∉ offsets_cubiertos (generar_tipo_triangular_superior d) →
      (desempaquetar (generar_tipo_triangular_superior d)
          (empaquetar (generar_tipo_triangular_superior d) origen) buffer).getD off 0 =
        buffer.getD off 0) := by
  unfold desempaquetar empaquetar
  rw [zip_map_self]
  have hfst : (List.map (fun o => (o, origen.getD o 0))
      (offsets_cubiertos (generar_tipo_triangular_superior d))).map Prod.fst =
      offsets_cubiertos (generar_tipo_triangular_superior d) := by
    rw [List.map_map]
    exact List.map_id _
  refine ⟨length_foldl_set _ _, ?_, ?_⟩
  · intro off hoff
    apply getD_foldl_set_of_mem
    · rw [hfst]
      exact nodup_offsets_generar d
    · exact List.mem_map.mpr ⟨off, hoff, rfl⟩
    · rw [hlen]
      exact offsets_lt_generar d off hoff
  · intro off hoff
    apply getD_foldl_set_of_not_mem
    rw [hfst]
    exact hoff

theorem recepcion_escribe_cubiertos_y_preserva_resto_witness :
    (desempaquetar (generar_tipo_triangular_superior 4)
        (empaquetar (generar_tipo_triangular_superior 4) matriz_origen)
        (crear_matriz 4 false)).getD 5 0 = matriz_origen.getD 5 0 :=
  (recepcion_escribe_cubiertos_y_preserva_resto 4 matriz_origen (crear_matriz 4 false)
    (by decide)).2.1 5 (by decide)

/-- C9: the send does not modify the source buffer: after the source rank's
send, every element of its matrix still holds the initialized value
`value(r,c) = r*4+c`, identical to its pre-send contents. -/
theorem envio_no_modifica_origen :
    (enviar tipo_triang_sup matriz_origen).2 = matriz_origen ∧
    (∀ r, r < 4 → ∀ c, c < 4 →
      (enviar tipo_triang_sup matriz_origen).2.getD (r * 4 + c) 0 = ((r * 4 + c : Nat) : Int)) :=
  ⟨rfl, by decide⟩

theorem envio_no_modifica_origen_witness :
    (enviar tipo_triang_sup matriz_origen).2.getD 7 0 = ((7 : Nat) : Int) :=
  envio_no_modifica_origen.2 1 (by decide) 3 (by decide)

/-- C7 (counterexample): with the block-lengths allocation failing at
dimension 4, the Layout Builder does not fail with an AllocationError: the
code never checks its allocations, so the build ends in an unchecked store
through the failed allocation (an invalid write), not a reported error. -/
theorem asignacion_fallida_sin_error_reportado :
    generar_tipo_triangular_superior_con_asignacion 4 false true =
      ResultadoConstruccion.escritura_invalida ∧
    generar_tipo_triangular_superior_con_asignacion 4 false true ≠
      ResultadoConstruccion.error_de_asignacion := by
  decide

/-- C7 (amended): descriptor construction succeeds exactly when both table
allocations succeed; on any failed allocation (dimension ≥ 1) no descriptor —
partial or otherwise — is produced, but no AllocationError is reported
either: the build ends in an invalid write through the failed allocation. -/
theorem construccion_exige_ambas_asignaciones (d : Nat) (hd : 1 ≤ d) (a1 a2 : Bool) :
    ((∃ t, generar_tipo_triangular_superior_con_asignacion d a1 a2 =
        ResultadoConstruccion.descriptor t) ↔ (a1 = true ∧ a2 = true)) ∧
    (¬(a1 = true ∧ a2 = true) →
      generar_tipo_triangular_superior_con_asignacion d a1 a2 =
        ResultadoConstruccion.escritura_invalida) := by
  have hd0 : d ≠ 0 := by omega
  cases a1 <;> cases a2 <;>
    simp [generar_tipo_triangular_superior_con_asignacion, hd0]

theorem construccion_exige_ambas_asignaciones_witness :
    generar_tipo_triangular_superior_con_asignacion 4 false true =
      ResultadoConstruccion.escritura_invalida :=
  (construccion_exige_ambas_asignaciones 4 (by decide) false true).2 (by decide)

/-- C5: the configuration validator checks repetitions = 1, source ≠
destination and group size ≥ 2; any violated check yields a human-readable
message and a group abort with exit code 1, and for every group size < 2 the
source rank aborts before any send or receive is attempted. -/
theorem validador_rechaza_configuracion_invalida (n o dst p : Nat) :
    (verificar_configuracion n o dst p = ResultadoVerificacion.ok ↔
      (n = 1 ∧ o ≠ dst ∧ 2 ≤ p)) ∧
    (¬(n = 1 ∧ o ≠ dst ∧ 2 ≤ p) →
      ∃ m, verificar_configuracion n o dst p = ResultadoVerificacion.aborto 1 m ∧
        0 < m.length) ∧
    (p < 2 →
      (traza_main PROCESO_ORIGEN p).2 = none ∧
      (∀ destino e, Evento.envio destino e ∉ (traza_main PROCESO_ORIGEN p).1) ∧
      (∀ origen e, Evento.recepcion origen e ∉ (traza_main PROCESO_ORIGEN p).1)) := by
  refine ⟨?_, ?_, ?_⟩
  · unfold verificar_configuracion
    split_ifs with h1 h2 h3 <;> simp_all
  · intro hbad
    unfold verificar_configuracion
    split_ifs with h1 h2 h3
    · exact ⟨_, rfl, by decide⟩
    · exact ⟨_, rfl, by decide⟩
    · exact ⟨_, rfl, by decide⟩
    · exact absurd ⟨by omega, h2, by omega⟩ hbad
  · intro hp
    have habort : verificar_configuracion NUM_ITERACIONES PROCESO_ORIGEN PROCESO_DESTINO p ≠
        ResultadoVerificacion.ok := by
      show verificar_configuracion 1 0 1 p ≠ ResultadoVerificacion.ok
      unfold verificar_configuracion
      rw [if_neg (by omega), if_neg (by omega), if_pos hp]
      simp
    unfold traza_main
    rw [if_pos ⟨rfl, habort⟩]
    refine ⟨rfl, ?_, ?_⟩ <;> intro a e <;> simp

theorem validador_rechaza_configuracion_invalida_witness :
    (traza_main PROCESO_ORIGEN 1).2 = none :=
  ((validador_rechaza_configuracion_invalida 1 0 1 1).2.2 (by decide)).1

/-- C6: configuration validation is executed exactly once, only by the source
rank, and it is the very first step of that rank's trace — before the barrier
and before any send or receive; every other rank never validates. -/
theorem validacion_unica_primero (rango total : Nat) :
    (rango = PROCESO_ORIGEN → ∃ resto,
      (traza_main rango total).1 = Evento.verificacion total :: resto ∧
      (∀ t, Evento.verificacion t ∉ resto)) ∧
    (rango ≠ PROCESO_ORIGEN →
      ∀ t, Evento.verificacion t ∉ (traza_main rango total).1) := by
  constructor
  · intro h0
    subst h0
    unfold traza_main
    by_cases hc : verificar_configuracion NUM_ITERACIONES PROCESO_ORIGEN PROCESO_DESTINO
        total = ResultadoVerificacion.ok
    · rw [if_neg (fun hand => hand.2 hc), if_pos rfl, if_pos rfl]
      exact ⟨_, rfl, by intro t; simp⟩
    · rw [if_pos ⟨rfl, hc⟩]
      exact ⟨_, rfl, by intro t; simp⟩
  · intro h0 t
    unfold traza_main
    rw [if_neg (fun hand => h0 hand.1), if_neg h0, if_neg h0]
    by_cases h1 : rango = PROCESO_DESTINO
    · rw [if_pos h1]
      simp
    · rw [if_neg h1]
      simp

theorem validacion_unica_primero_witness :
    Evento.verificacion 4 ∉ (traza_main 2 4).1 :=
  (validacion_unica_primero 2 4).2 (by decide) 4

/-- C10: a rank that is neither the source nor the destination performs no
send and no receive; it still creates and initializes its matrix, builds the
descriptor, frees the matrix and the descriptor, and completes normally with
exit status 0. -/
theorem rangos_pasivos_completan (rango total : Nat) (h2 : 2 ≤ rango)
    (hlt : rango < total) :
    (∀ destino e, Evento.envio destino e ∉ (traza_main rango total).1) ∧
    (∀ origen e, Evento.recepcion origen e ∉ (traza_main rango total).1) ∧
    Evento.crear dimension_matriz true ∈ (traza_main rango total).1 ∧
    Evento.construir_tipo dimension_matriz ∈ (traza_main rango total).1 ∧
    Evento.liberar_matriz ∈ (traza_main rango total).1 ∧
    Evento.liberar_tipo ∈ (traza_main rango total).1 ∧
    (traza_main rango total).2 = some 0 := by
  have h0 : rango ≠ PROCESO_ORIGEN := by
    show rango ≠ 0
    omega
  have h1 : rango ≠ PROCESO_DESTINO := by
    show rango ≠ 1
    omega
  unfold traza_main
  rw [if_neg (fun hand => h0 hand.1), if_neg h0, if_neg h0, if_neg h1]
  refine ⟨?_, ?_, ?_, ?_, ?_, ?_, rfl⟩ <;> intros <;> simp

theorem rangos_pasivos_completan_witness :
    (traza_main 2 3).2 = some 0 :=
  (rangos_pasivos_completan 2 3 (by decide) (by decide)).2.2.2.2.2.2
